import Mathlib

/-!
Verification of the TSAR structured-covariance autoregression orchestrator
(`tsar/TSAR.py`): a shallow embedding of its configuration, fitting-call,
persistence and prediction plumbing, with proofs of the specified properties.

Collaborator modules (`tsar.AR`, `tsar.linear_algebra`, `tsar.baseline`) are
not part of the sources; where a claim only routes data through them they are
taken as abstract function parameters, and where a claim is about their
behaviour the definition is modelled from the specification and marked so.
-/

namespace TSARSpec

/-- Column labels of the input data frame. -/
abbrev Col := String

/-! ## Definitions: `TSAR.__init__` block handling (TSAR.py lines 91-102) -/

/-- `sum(full_covariance_blocks, [])` (TSAR.py lines 91, 95, 100): the
concatenation of the supplied covariance blocks. -/
def blocksUnion (blocks : List (List Col)) : List Col := blocks.join

/-- The `assert` at TSAR.py lines 91-92: the concatenation of the supplied
blocks has as many elements as its set of distinct elements (Python
`len(set(...))`, here the length of `dedup`). -/
def blocks_assert (blocks : List (List Col)) : Bool :=
  (blocksUnion blocks).length == (blocksUnion blocks).dedup.length

/-- `self.not_in_blocks` (TSAR.py lines 94-95): the data columns that appear
in no supplied block.  The Python value is a set; we keep data-frame column
order, which no claim depends on. -/
def not_in_blocks (dataColumns : List Col) (blocks : List (List Col)) : List Col :=
  dataColumns.filter (fun c => !(blocksUnion blocks).contains c)

/-- TSAR.py line 97: `self.full_covariance_blocks += [[el] for el in
self.not_in_blocks]` — the supplied blocks extended with a singleton block per
ungrouped column. -/
def full_covariance_blocks (dataColumns : List Col) (blocks : List (List Col)) :
    List (List Col) :=
  blocks ++ (not_in_blocks dataColumns blocks).map (fun c => [c])

/-- TSAR.py line 100: `self.columns`, the model columns ordered by blocks. -/
def columns (dataColumns : List Col) (blocks : List (List Col)) : List Col :=
  (full_covariance_blocks dataColumns blocks).join

/-- The configuration stage of `TSAR.__init__` restricted to block handling
(TSAR.py lines 91-102): the assert runs first; only when it passes does the
constructor reach block completion and, later (lines 128-129), fitting. -/
def tsar_init_blocks (dataColumns : List Col) (blocks : List (List Col)) :
    Option (List (List Col)) :=
  if blocks_assert blocks then some (full_covariance_blocks dataColumns blocks)
  else none

/-! ## Definitions: `TSAR.variables_weight` (TSAR.py lines 132-155) -/

/-- `np.isclose` with its default tolerances (`rtol = 1e-5`, `atol = 1e-8`),
in exact rational arithmetic. -/
def npIsclose (a b : ℚ) : Bool :=
  decide (|a - b| ≤ 1 / 100000000 + (1 / 100000) * |b|)

/-- The attributes read by the `variables_weight` property. -/
structure WeightConfig where
  columns : List Col
  ignore_prediction_columns : List Col
  prediction_variables_weight : Option ℚ

/-- `TSAR.prediction_columns` (TSAR.py lines 157-159): the model columns not
marked predictor-only.  The Python value is a set; we keep column order, on
which nothing below depends. -/
def prediction_columns (c : WeightConfig) : List Col :=
  c.columns.filter (fun x => !c.ignore_prediction_columns.contains x)

/-- The square of the weight `TSAR.variables_weight` (TSAR.py lines 132-155)
assigns to column `col`.  The Python weights are `np.sqrt` of the rational
quantities tracked here, so the sums of squares compared by the property's
asserts are exactly sums of these values. -/
def variables_weight_sq (c : WeightConfig) (col : Col) : ℚ :=
  match c.prediction_variables_weight with
  | none => 1
  | some pvw =>
    if c.ignore_prediction_columns.isEmpty then 1
    else
      let tot : ℚ := c.columns.length
      let prediction_weight := pvw * tot
      let predictive_weight := tot - prediction_weight
      if c.ignore_prediction_columns.contains col then
        predictive_weight / c.ignore_prediction_columns.length
      else
        prediction_weight / (prediction_columns c).length

/-- `(weights[group] ** 2).sum()`: summed squared weights over a group. -/
def group_weight_sq_sum (c : WeightConfig) (group : List Col) : ℚ :=
  (group.map (variables_weight_sq c)).sum

/-- The two `assert`s of `variables_weight` (TSAR.py lines 151-153): total
squared weight close to the number of columns, and the prediction-target and
predictor-only groups having (close to) equal summed squared weight. -/
def variables_weight_asserts (c : WeightConfig) : Bool :=
  npIsclose (group_weight_sq_sum c c.columns) (c.columns.length : ℚ) &&
  npIsclose (group_weight_sq_sum c (prediction_columns c))
    (group_weight_sq_sum c c.ignore_prediction_columns)

/-- A concrete configuration: two columns, one predictor-only, supplied
prediction-variables weight 1/4. -/
def quarterWeightConfig : WeightConfig :=
  { columns := ["a", "b"],
    ignore_prediction_columns := ["b"],
    prediction_variables_weight := some (1 / 4) }

/-! ## Definitions: the fitting call
(`TSAR._fit_low_rank_plus_block_diagonal_AR`, TSAR.py lines 292-318) -/

/-- A fragment of Python expression structure, enough to transcribe the
argument list of the call to `fit_low_rank_plus_block_diagonal_AR` at TSAR.py
lines 304-316.  `juxt` records two expressions standing side by side with no
operator and no comma between them — a form no Python parse accepts. -/
inductive PyExpr where
  | ident : String → PyExpr
  | attr : PyExpr → String → PyExpr
  | call1 : PyExpr → PyExpr → PyExpr
  | ternary : PyExpr → PyExpr → PyExpr → PyExpr
  | is_not_none : PyExpr → PyExpr
  | none_lit : PyExpr
  | juxt : PyExpr → PyExpr → PyExpr
deriving DecidableEq

/-- An expression fragment is well-formed Python exactly when it contains no
operator-less juxtaposition. -/
def PyExpr.wellFormed : PyExpr → Bool
  | .ident _ => true
  | .attr e _ => e.wellFormed
  | .call1 f a => f.wellFormed && a.wellFormed
  | .ternary a b c => a.wellFormed && b.wellFormed && c.wellFormed
  | .is_not_none e => e.wellFormed
  | .none_lit => true
  | .juxt _ _ => false

/-- A comma-separated argument list is well-formed when each unit between
commas is a well-formed expression. -/
def argsWellFormed (args : List PyExpr) : Bool :=
  args.all PyExpr.wellFormed

/-- Shorthand for `self.<name>`. -/
def selfAttr (name : String) : PyExpr := .attr (.ident "self") name

/-- The comma-separated units of the argument list of the call to
`fit_low_rank_plus_block_diagonal_AR`, transcribed from TSAR.py lines 304-316
exactly as written: eleven units, the last being `self.noise_correction
self.variables_weight` — two expressions with no comma between them (the
comma is missing at the end of line 315). -/
def fit_AR_call_args : List PyExpr :=
  [ .call1 (selfAttr "_residual") (.ident "train"),
    .ternary (.call1 (selfAttr "_residual") (.ident "test"))
      (.is_not_none (.ident "test")) .none_lit,
    selfAttr "future_lag",
    selfAttr "past_lag",
    selfAttr "rank",
    selfAttr "available_data_lags_columns",
    selfAttr "ignore_prediction_columns",
    selfAttr "full_covariance",
    selfAttr "full_covariance_blocks",
    selfAttr "quadratic_regularization",
    .juxt (selfAttr "noise_correction") (selfAttr "variables_weight") ]

/-- Modelled from the spec: the argument list of the Fit operation as §6 of
the specification describes it — the same twelve arguments, with the
noise-correction flag and the per-variable weight vector as the final two,
separated by a comma. -/
def fit_AR_call_args_intended : List PyExpr :=
  [ .call1 (selfAttr "_residual") (.ident "train"),
    .ternary (.call1 (selfAttr "_residual") (.ident "test"))
      (.is_not_none (.ident "test")) .none_lit,
    selfAttr "future_lag",
    selfAttr "past_lag",
    selfAttr "rank",
    selfAttr "available_data_lags_columns",
    selfAttr "ignore_prediction_columns",
    selfAttr "full_covariance",
    selfAttr "full_covariance_blocks",
    selfAttr "quadratic_regularization",
    selfAttr "noise_correction",
    selfAttr "variables_weight" ]

/-- The six attributes bound to the result of the call, transcribed from
TSAR.py lines 301-303 in order. -/
def fit_AR_assignment_targets : List String :=
  ["past_lag", "rank", "quadratic_regularization",
   "s_times_v", "S_lagged_covariances", "block_lagged_covariances"]

/-! ## Definitions: model state, matrix building and persistence
(TSAR.py lines 285-290, 526-551) -/

/-- The structured covariance produced by `build_matrices`
(`TSAR._build_matrices`, TSAR.py lines 285-290): low-rank loading `V`, factor
covariance `S` and its inverse, and the block-diagonal noise, over `n`
(variables times lag window) observation slots and `k` (rank times lag
window) factor slots.  `D_blocks` is only routed, never inspected, by the
orchestrator, so its type `δ` stays abstract. -/
structure StructuredMats (n k : ℕ) (δ : Type) where
  V : Matrix (Fin n) (Fin k) ℚ
  S : Matrix (Fin k) (Fin k) ℚ
  S_inv : Matrix (Fin k) (Fin k) ℚ
  D_blocks : δ
  D_matrix : Matrix (Fin n) (Fin n) ℚ

/-- The dictionary persisted by `TSAR.save_model` (TSAR.py lines 527-541),
one field per pickled key, in source order.  Attributes the orchestrator only
carries are abstract (`Freq`, `BP`, and the sufficient-statistic types `α`,
`β`, `γ`); `baseline_results_columns` is modelled by the per-column `std`
entry, the only entry read back (lines 334, 480); `var_min`/`var_max` stand
for `_min`/`_max` (lines 222-223), with `none` for a column whose fit data
was all missing (pandas NaN). -/
structure ModelDict (Freq BP α β γ : Type) where
  frequency : Freq
  past_lag : ℕ
  future_lag : ℕ
  columns : List Col
  baseline_params_columns : BP
  baseline_results_columns : Col → ℚ
  var_min : Col → Option ℚ
  var_max : Col → Option ℚ
  available_data_lags_columns : Col → ℕ
  rank : ℕ
  quadratic_regularization : ℚ
  s_times_v : α
  S_lagged_covariances : β
  block_lagged_covariances : γ
  ignore_prediction_columns : List Col

/-- A fitted model: the persisted attributes plus the structured covariance
`(V, S, S_inv, D_blocks, D_matrix)` installed by `_build_matrices`. -/
structure TSARModel (n k : ℕ) (Freq BP α β γ δ : Type) extends
    ModelDict Freq BP α β γ where
  mats : StructuredMats n k δ

/-- `TSAR._build_matrices` (TSAR.py lines 285-290): apply the AR module's
`build_matrices` (here the abstract parameter `bm`) to exactly the three
sufficient-statistic attributes. -/
def build_matrices_of {n k : ℕ} {Freq BP α β γ δ : Type}
    (bm : α → β → γ → StructuredMats n k δ) (d : ModelDict Freq BP α β γ) :
    StructuredMats n k δ :=
  bm d.s_times_v d.S_lagged_covariances d.block_lagged_covariances

/-- `TSAR.save_model` (TSAR.py lines 526-544): serialize the dictionary of
persisted attributes.  `gzip.compress ∘ pickle.dumps` is the abstract `dumps`
parameter. -/
def save_model {n k : ℕ} {Freq BP α β γ δ Bytes : Type}
    (dumps : ModelDict Freq BP α β γ → Bytes)
    (m : TSARModel n k Freq BP α β γ δ) : Bytes :=
  dumps m.toModelDict

/-- `load_model` (TSAR.py lines 547-551): make a fresh model, update its
attribute dictionary with the deserialized dictionary, and run
`_build_matrices`.  The Fitting Engine is not among its inputs, so it cannot
be re-run. -/
def load_model {n k : ℕ} {Freq BP α β γ δ Bytes : Type}
    (bm : α → β → γ → StructuredMats n k δ)
    (loadsBytes : Bytes → ModelDict Freq BP α β γ) (b : Bytes) :
    TSARModel n k Freq BP α β γ δ :=
  let d := loadsBytes b
  { toModelDict := d, mats := build_matrices_of bm d }

/-! ## Definitions: `TSAR.Sigma` and `TSAR.predict`
(TSAR.py lines 190-192, 413-499) -/

/-- `TSAR.Sigma` (TSAR.py lines 190-192): the dense diagnostic covariance. -/
def TSAR_Sigma {n k : ℕ} {Freq BP α β γ δ : Type}
    (m : TSARModel n k Freq BP α β γ δ) : Matrix (Fin n) (Fin n) ℚ :=
  m.mats.V * m.mats.S * m.mats.V.transpose + m.mats.D_matrix

/-- `known_mask = ~np.isnan(residual_vectorized)` (TSAR.py line 438); the
flattened residual slice is a vector of optional rationals, `none` for NaN. -/
def known_mask {n : ℕ} (v : Fin n → Option ℚ) : Fin n → Bool :=
  fun i => (v i).isSome

/-- The unknown (`~known_mask`) positions in index order. -/
def unknown_positions {n : ℕ} (v : Fin n → Option ℚ) : List (Fin n) :=
  (List.finRange n).filter (fun i => (v i).isNone)

/-- `residual_vectorized[known_mask]` (TSAR.py line 455): the known values
compacted in index order. -/
def known_values {n : ℕ} (v : Fin n → Option ℚ) : List ℚ :=
  ((List.finRange n).filter (fun i => (v i).isSome)).map (fun i => (v i).getD 0)

/-- The interface of the structured Schur solver
(`symm_low_rank_plus_block_diag_schur`, linear_algebra module, not among the
sources): structured covariance, block indexes, known mask, compacted known
values, prediction mask, quadratic regularization — returning the conditional
means at the prediction-mask positions in index order.  The dense covariance
is not among its inputs. -/
def SchurSolver (n k : ℕ) (δ ε : Type) : Type :=
  StructuredMats n k δ → ε → (Fin n → Bool) → List ℚ → (Fin n → Bool) → ℚ →
    List ℚ

/-- The residual-space core of `TSAR.predict` (TSAR.py lines 438-494): call
the structured solver on `(V, S, S_inv, D_blocks, D_blocks_indexes,
D_matrix)` with the known mask, the compacted known values, prediction mask
`~known_mask` and the model's quadratic regularization, then write the
predictions back into the unknown slots (line 486).  Known slots keep their
residual values; `Sigma` is never formed. -/
def TSAR_predict {n k : ℕ} {Freq BP α β γ δ ε : Type}
    (make_block_indexes : δ → ε) (schur : SchurSolver n k δ ε)
    (m : TSARModel n k Freq BP α β γ δ) (v : Fin n → Option ℚ) : Fin n → ℚ :=
  let predicted := schur m.mats (make_block_indexes m.mats.D_blocks)
    (known_mask v) (known_values v) (fun i => !known_mask v i)
    m.quadratic_regularization
  fun i => match v i with
    | some x => x
    | none => predicted.getD ((unknown_positions v).indexOf i) 0

/-- `sigval` (TSAR.py lines 471-480, `return_sigmas=True`): a zero vector
with the solver's conditional variances scattered into the unknown slots
(`sigval[~known_mask] = np.diag(Sigma)`), then rescaled per column by the
baseline std (lines 479-480). -/
def predict_sigval {n : ℕ} (condDiag : List ℚ) (v : Fin n → Option ℚ)
    (std : Fin n → ℚ) : Fin n → ℚ :=
  fun i =>
    (if (v i).isSome then 0
     else condDiag.getD ((unknown_positions v).indexOf i) 0) * std i

/-! ## Definitions: `TSAR.test_AR` (TSAR.py lines 320-336) -/

/-- `TSAR.test_AR` (TSAR.py lines 320-336): reorder the held-out frame to the
model columns (`test[self.columns]`, abstract `reindex`), residualize it
(abstract `residual_of`), call the AR module's `rmse_AR` (abstract parameter)
on the structured matrices, the lags, the residuals, the availability lags,
the predictor-only columns and the regularization, then rescale every column
of the returned RMSE table by that column's stored baseline std (lines
333-334).  The table maps column and forecast lag to an RMSE in residual
units; the gradient diagnostics are returned unchanged. -/
def test_AR {n k : ℕ} {Freq BP α β γ δ Data Res G : Type}
    (reindex : Data → List Col → Data) (residual_of : Data → Res)
    (rmse_AR : StructuredMats n k δ → ℕ → ℕ → Res → (Col → ℕ) → List Col →
      ℚ → (Col → ℕ → ℚ) × G)
    (m : TSARModel n k Freq BP α β γ δ) (test : Data) : (Col → ℕ → ℚ) × G :=
  let res := rmse_AR m.mats m.past_lag m.future_lag
    (residual_of (reindex test m.columns)) m.available_data_lags_columns
    m.ignore_prediction_columns m.quadratic_regularization
  (fun col lag => res.1 col lag * m.baseline_results_columns col, res.2)

/-! ## Definitions: fitted ranges and clipping
(TSAR.py lines 220-226, 370-372) -/

/-- `TSAR._fit_ranges` (TSAR.py lines 220-223), `self._min`: the per-column
minimum of the data used for the fit.  A column's observed values are a list
of rationals (missing entries dropped, as pandas `min` skips NaN); a column
with no observation yields `none` (pandas NaN). -/
def fit_ranges_min (fitData : Col → List ℚ) (col : Col) : Option ℚ :=
  (fitData col).min?

/-- `TSAR._fit_ranges` (TSAR.py lines 220-223), `self._max`. -/
def fit_ranges_max (fitData : Col → List ℚ) (col : Col) : Option ℚ :=
  (fitData col).max?

/-- One entry of pandas `clip(self._min, self._max, axis=1)`
(`TSAR._clip_prediction`, TSAR.py lines 225-226): clip below at the column
minimum and above at the column maximum; a missing bound leaves that side
unclipped. -/
def seriesClip (lo hi : Option ℚ) (x : ℚ) : ℚ :=
  let x1 := match lo with
    | none => x
    | some l => max x l
  match hi with
  | none => x1
  | some h => min x1 h

/-- One entry of `TSAR._invert_residual` (TSAR.py lines 370-372): the
baseline residual-to-data transform for the entry's column (abstract
collaborator `invert_col`, the per-column `residual_to_data`), then
`_clip_prediction`. -/
def invert_residual_entry (invert_col : Col → ℚ → ℚ)
    (mn mx : Col → Option ℚ) (col : Col) (r : ℚ) : ℚ :=
  seriesClip (mn col) (mx col) (invert_col col r)

/-- The value `TSAR.predict` (TSAR.py line 499) returns at slot `i` (a slot
of column `colOf i`) of the prediction window: `_invert_residual` applied to
the predicted residuals.  `predict_many` (line 411) likewise returns every
per-lag frame through `_invert_residual`. -/
def TSAR_predict_output {n k : ℕ} {Freq BP α β γ δ ε : Type}
    (mbi : δ → ε) (schur : SchurSolver n k δ ε) (invert_col : Col → ℚ → ℚ)
    (m : TSARModel n k Freq BP α β γ δ) (colOf : Fin n → Col)
    (v : Fin n → Option ℚ) : Fin n → ℚ :=
  fun i => invert_residual_entry invert_col m.var_min m.var_max (colOf i)
    (TSAR_predict mbi schur m v i)

/-! ## Definitions: prediction masks (`make_prediction_mask`,
used by `TSAR.predict_many` at TSAR.py lines 391-398) -/

/-- The default column label for out-of-range flattened positions. -/
def dfltCol : Col := ""

/-- Modelled from the spec: `make_prediction_mask` lives in the AR module,
which is not among the sources; §4.3 of the specification describes it.
Given the per-variable availability lags, the predictor-only flag, the
ordered columns and the window geometry, it returns two boolean masks over
the flattened `variables * lag` dimension (one contiguous `lag`-long segment
per variable, past slots first): the prediction mask — future slots
(offset ≥ `past_lag` within the segment) of non-predictor-only variables —
and the unknown mask — slots not yet observed at prediction time, i.e. whose
offset plus the variable's availability lag reaches the future region. -/
def make_prediction_mask (available_data_lags : Col → ℕ)
    (ignore_col : Col → Bool) (cols : List Col) (past_lag future_lag : ℕ) :
    (ℕ → Bool) × (ℕ → Bool) :=
  let lag := past_lag + future_lag
  let colAt : ℕ → Col := fun p => cols.getD (p / lag) dfltCol
  (fun p => decide (past_lag ≤ p % lag) && !ignore_col (colAt p),
   fun p => decide (past_lag ≤ p % lag + available_data_lags (colAt p)))

/-- TSAR.py line 398 in `predict_many`:
`residuals_flattened[:, unknown_mask] = np.nan` — one flattened row with the
unknown slots overwritten by NaN (`none`). -/
def masked_row (row : ℕ → Option ℚ) (unknown : ℕ → Bool) : ℕ → Option ℚ :=
  fun p => if unknown p then none else row p

/-- The known entries presented to the inference engine (`guess_matrix`,
TSAR.py lines 399-403): the entries of the masked row that are still
present. -/
def known_entries_mask (row : ℕ → Option ℚ) (unknown : ℕ → Bool) : ℕ → Bool :=
  fun p => (masked_row row unknown p).isSome

/-! ## Definitions: concrete instances used by witnesses -/

/-- A minimal concrete persisted dictionary. -/
def demoDict : ModelDict Unit Unit Unit Unit Unit :=
  { frequency := (), past_lag := 1, future_lag := 1, columns := ["a"],
    baseline_params_columns := (), baseline_results_columns := fun _ => 1,
    var_min := fun _ => none, var_max := fun _ => none,
    available_data_lags_columns := fun _ => 0, rank := 1,
    quadratic_regularization := 0, s_times_v := (),
    S_lagged_covariances := (), block_lagged_covariances := (),
    ignore_prediction_columns := [] }

/-- A concrete structured covariance on one observation slot, one factor. -/
def demoMats : StructuredMats 1 1 Unit :=
  { V := 1, S := 1, S_inv := 1, D_blocks := (), D_matrix := 1 }

/-- A minimal concrete fitted model. -/
def demoModel : TSARModel 1 1 Unit Unit Unit Unit Unit Unit :=
  { toModelDict := demoDict, mats := demoMats }

/-- A concrete matrix builder returning `demoMats`. -/
def demoBuild : Unit → Unit → Unit → StructuredMats 1 1 Unit :=
  fun _ _ _ => demoMats

/-- A concrete Schur solver: one conditional mean per prediction slot, all
equal to 7. -/
def demoSchur : SchurSolver 1 1 Unit Unit :=
  fun _ _ _ _ pm _ => ((List.finRange 1).filter pm).map (fun _ => 7)

/-- Concrete fit data: every column observed the values 0 and 2. -/
def demoFitData : Col → List ℚ := fun _ => [0, 2]

/-- A concrete fitted model whose ranges come from `demoFitData`. -/
def demoFitModel : TSARModel 1 1 Unit Unit Unit Unit Unit Unit :=
  { toModelDict :=
      { demoDict with
        var_min := fit_ranges_min demoFitData,
        var_max := fit_ranges_max demoFitData },
    mats := demoMats }

/-! ## Theorems -/

theorem join_map_singleton (l : List Col) : (l.map (fun c => [c])).join = l := by
  induction l with
  | nil => rfl
  | cons a t ih => simp [ih]

theorem nodup_of_blocks_assert {blocks : List (List Col)}
    (h : blocks_assert blocks = true) : (blocksUnion blocks).Nodup := by
  have hlen : (blocksUnion blocks).length = (blocksUnion blocks).dedup.length := by
    simpa [blocks_assert] using h
  have hsub : (blocksUnion blocks).dedup.Sublist (blocksUnion blocks) :=
    List.dedup_sublist _
  have : (blocksUnion blocks).dedup = blocksUnion blocks :=
    hsub.eq_of_length hlen.symm
  exact List.dedup_eq_self.mp this

theorem columns_eq_append (dataColumns : List Col) (blocks : List (List Col)) :
    columns dataColumns blocks
      = blocksUnion blocks ++ not_in_blocks dataColumns blocks := by
  simp [columns, full_covariance_blocks, blocksUnion, join_map_singleton]

/-- C6: after construction the covariance blocks partition the variable set:
pairwise disjoint, every data column in exactly one block, and a singleton
block auto-created for every column listed in no supplied block. -/
theorem covariance_blocks_partition (dataColumns : List Col)
    (blocks : List (List Col))
    (hnd : dataColumns.Nodup)
    (hsub : ∀ c ∈ blocksUnion blocks, c ∈ dataColumns)
    (hok : blocks_assert blocks = true) :
    (full_covariance_blocks dataColumns blocks).Pairwise List.Disjoint ∧
    (∀ c, c ∈ columns dataColumns blocks ↔ c ∈ dataColumns) ∧
    (∀ c ∈ dataColumns, ∃! b, b ∈ full_covariance_blocks dataColumns blocks ∧ c ∈ b) ∧
    (∀ c ∈ dataColumns, c ∉ blocksUnion blocks →
      [c] ∈ full_covariance_blocks dataColumns blocks) := by
  have hbu : (blocksUnion blocks).Nodup := nodup_of_blocks_assert hok
  have hnib : (not_in_blocks dataColumns blocks).Nodup := hnd.filter _
  have hmem_nib : ∀ c, c ∈ not_in_blocks dataColumns blocks ↔
      c ∈ dataColumns ∧ c ∉ blocksUnion blocks := by
    intro c
    simp [not_in_blocks, List.mem_filter]
  have hjoin : (columns dataColumns blocks).Nodup := by
    rw [columns_eq_append]
    refine List.Nodup.append hbu hnib ?_
    intro c hc hc2
    exact ((hmem_nib c).mp hc2).2 hc
  have hjoin2 : ((full_covariance_blocks dataColumns blocks).join).Nodup := hjoin
  have hpair := (List.nodup_join.mp hjoin2).2
  refine ⟨hpair, ?_, ?_, ?_⟩
  · intro c
    rw [columns_eq_append, List.mem_append, hmem_nib c]
    constructor
    · rintro (h | h)
      · exact hsub c h
      · exact h.1
    · intro h
      by_cases hb : c ∈ blocksUnion blocks
      · exact Or.inl hb
      · exact Or.inr ⟨h, hb⟩
  · intro c hc
    have hmem : c ∈ columns dataColumns blocks := by
      rw [columns_eq_append]
      by_cases hb : c ∈ blocksUnion blocks
      · exact List.mem_append.mpr (Or.inl hb)
      · exact List.mem_append.mpr (Or.inr ((hmem_nib c).mpr ⟨hc, hb⟩))
    obtain ⟨b, hb, hcb⟩ := List.mem_join.mp hmem
    refine ⟨b, ⟨hb, hcb⟩, ?_⟩
    rintro b2 ⟨hb2, hcb2⟩
    by_contra hne
    have hdisj : List.Disjoint b2 b := by
      have hsymm : Symmetric (List.Disjoint (α := Col)) := by
        intro x y hxy
        exact List.Disjoint.symm hxy
      exact hpair.forall hsymm hb2 hb hne
    exact hdisj hcb2 hcb
  · intro c hc hnb
    have : c ∈ not_in_blocks dataColumns blocks := (hmem_nib c).mpr ⟨hc, hnb⟩
    have : [c] ∈ (not_in_blocks dataColumns blocks).map (fun c => [c]) :=
      List.mem_map.mpr ⟨c, this, rfl⟩
    exact List.mem_append.mpr (Or.inr this)

/-- C6 witness: a concrete configuration with one supplied two-column block
and one ungrouped column. -/
theorem covariance_blocks_partition_witness :
    (["a", "b", "c"] : List Col).Nodup ∧
    (∀ c ∈ blocksUnion [["a", "b"]], c ∈ (["a", "b", "c"] : List Col)) ∧
    blocks_assert [["a", "b"]] = true ∧
    (∀ c ∈ (["a", "b", "c"] : List Col), c ∉ blocksUnion [["a", "b"]] →
      [c] ∈ full_covariance_blocks ["a", "b", "c"] [["a", "b"]]) :=
  ⟨by decide, by decide, by decide,
    (covariance_blocks_partition ["a", "b", "c"] [["a", "b"]]
      (by decide) (by decide) (by decide)).2.2.2⟩

theorem not_nodup_blocksUnion_of_overlap {blocks : List (List Col)} {x : Col}
    {i j : Fin blocks.length} (hij : i ≠ j)
    (hx1 : x ∈ blocks.get i) (hx2 : x ∈ blocks.get j) :
    ¬ (blocksUnion blocks).Nodup := by
  intro hnd
  have hpair := (List.nodup_join.mp hnd).2
  have hget := List.pairwise_iff_get.mp hpair
  rcases lt_or_gt_of_ne hij with h | h
  · exact (hget i j h) hx1 hx2
  · exact (hget j i h) hx2 hx1

/-- C7: a configuration in which some variable appears in two distinct supplied
covariance blocks fails the `assert` at TSAR.py lines 91-92, so construction is
rejected before any fitting (lines 128-129) can start. -/
theorem overlapping_blocks_rejected (dataColumns : List Col)
    (blocks : List (List Col)) (x : Col) (i j : Fin blocks.length)
    (hij : i ≠ j) (hx1 : x ∈ blocks.get i) (hx2 : x ∈ blocks.get j) :
    blocks_assert blocks = false ∧ tsar_init_blocks dataColumns blocks = none := by
  have hnot : ¬ (blocksUnion blocks).Nodup :=
    not_nodup_blocksUnion_of_overlap hij hx1 hx2
  have hfalse : blocks_assert blocks = false := by
    by_contra h
    have : blocks_assert blocks = true := by
      cases hb : blocks_assert blocks
      · exact absurd hb h
      · rfl
    exact hnot (nodup_of_blocks_assert this)
  exact ⟨hfalse, by simp [tsar_init_blocks, hfalse]⟩

/-- C7 witness: the column `"a"` appears in both supplied blocks, so the
configuration is rejected. -/
theorem overlapping_blocks_rejected_witness :
    ((⟨0, by decide⟩ : Fin 2) ≠ (⟨1, by decide⟩ : Fin 2)) ∧
    ("a" ∈ ([["a"], ["a", "b"]] : List (List Col)).get ⟨0, by decide⟩) ∧
    ("a" ∈ ([["a"], ["a", "b"]] : List (List Col)).get ⟨1, by decide⟩) ∧
    tsar_init_blocks ["a", "b"] [["a"], ["a", "b"]] = none :=
  ⟨by decide, by decide, by decide,
    (overlapping_blocks_rejected ["a", "b"] [["a"], ["a", "b"]] "a"
      ⟨0, by decide⟩ ⟨1, by decide⟩ (by decide) (by decide) (by decide)).2⟩

theorem sum_map_const_of_forall {f : Col → ℚ} {k : ℚ} :
    ∀ {l : List Col}, (∀ x ∈ l, f x = k) → (l.map f).sum = l.length * k := by
  intro l
  induction l with
  | nil => intro _; simp
  | cons a t ih =>
    intro h
    have ha := h a (by simp)
    have ht : ∀ x ∈ t, f x = k := fun x hx => h x (by simp [hx])
    simp [ha, ih ht]
    ring

theorem sum_map_filter_split (l : List Col) (p : Col → Bool) (f : Col → ℚ) :
    (l.map f).sum
      = ((l.filter p).map f).sum + ((l.filter (fun x => !p x)).map f).sum := by
  induction l with
  | nil => simp
  | cons a t ih =>
    by_cases hp : p a
    · simp [List.filter_cons, hp, ih]
      ring
    · have hp2 : p a = false := by
        cases h : p a
        · rfl
        · exact absurd h hp
      simp [List.filter_cons, hp2, ih]
      ring

theorem length_filter_contains {cols ign : List Col}
    (hnod : cols.Nodup) (hnodI : ign.Nodup) (hsub : ∀ x ∈ ign, x ∈ cols) :
    (cols.filter (fun x => ign.contains x)).length = ign.length := by
  classical
  have hfn : (cols.filter (fun x => ign.contains x)).Nodup := hnod.filter _
  have hmem : ∀ x, x ∈ cols.filter (fun x => ign.contains x) ↔ x ∈ ign := by
    intro x
    rw [List.mem_filter]
    constructor
    · intro h
      have := h.2
      simpa using this
    · intro h
      exact ⟨hsub x h, by simpa using h⟩
  have hperm : List.Perm (cols.filter (fun x => ign.contains x)) ign :=
    List.perm_of_nodup_nodup_toFinset_eq hfn hnodI
      (by
        ext x
        simp only [List.mem_toFinset]
        exact hmem x)
  exact hperm.length_eq

/-- C2 counterexample: with a supplied prediction-variables weight of 1/4 and
a non-empty predictor-only set, the two groups' summed squared weights are 1/2
and 3/2 — not equal — and the configuration-time check fails (the Python
`assert` at TSAR.py lines 152-153 raises). -/
theorem variables_weight_unequal_counterexample :
    group_weight_sq_sum quarterWeightConfig (prediction_columns quarterWeightConfig) ≠
      group_weight_sq_sum quarterWeightConfig
        quarterWeightConfig.ignore_prediction_columns ∧
    variables_weight_asserts quarterWeightConfig = false := by
  constructor
  · simp +decide [group_weight_sq_sum, prediction_columns, quarterWeightConfig,
      variables_weight_sq]
    norm_num
  · simp +decide [variables_weight_asserts, npIsclose, group_weight_sq_sum,
      prediction_columns, quarterWeightConfig, variables_weight_sq]
    intro
    rw [show |(2:ℚ) - 4⁻¹ * 2| = 3 / 2 from by rw [abs_of_nonneg] <;> norm_num,
      show |(4:ℚ)⁻¹ * 2 - (2 - 4⁻¹ * 2)| = 1 from by
        rw [abs_of_nonpos] <;> norm_num]
    norm_num

/-- C2 amended: when the supplied prediction-variables weight is exactly 1/2
(and the predictor-only and prediction-target groups are both non-empty and
well-formed), the weighted sum of squares over prediction-target variables
equals the weighted sum of squares over predictor-only variables, and the
configuration-time checks pass. -/
theorem variables_weight_balanced_at_half (c : WeightConfig)
    (hpvw : c.prediction_variables_weight = some (1 / 2))
    (hnod : c.columns.Nodup)
    (hnodI : c.ignore_prediction_columns.Nodup)
    (hsubI : ∀ x ∈ c.ignore_prediction_columns, x ∈ c.columns)
    (hI : c.ignore_prediction_columns ≠ [])
    (hP : prediction_columns c ≠ []) :
    group_weight_sq_sum c (prediction_columns c) =
      group_weight_sq_sum c c.ignore_prediction_columns ∧
    variables_weight_asserts c = true := by
  have hIE : c.ignore_prediction_columns.isEmpty = false := by
    cases h : c.ignore_prediction_columns with
    | nil => exact absurd h hI
    | cons a t => rfl
  set n : ℚ := (c.columns.length : ℚ) with hn
  set nP : ℚ := ((prediction_columns c).length : ℚ) with hnP
  set nI : ℚ := ((c.ignore_prediction_columns.length : ℕ) : ℚ) with hnI
  have hnP0 : nP ≠ 0 := by
    rw [hnP]
    exact_mod_cast fun h => hP (List.length_eq_zero.mp (by exact_mod_cast h))
  have hnI0 : nI ≠ 0 := by
    rw [hnI]
    exact_mod_cast fun h => hI (List.length_eq_zero.mp (by exact_mod_cast h))
  have hvP : ∀ x ∈ prediction_columns c,
      variables_weight_sq c x = (1 / 2 * n) / nP := by
    intro x hx
    have hnm : x ∉ c.ignore_prediction_columns := by
      have := (List.mem_filter.mp hx).2
      simpa using this
    simp [variables_weight_sq, hpvw, hIE, hnm, hn, hnP]
  have hvI : ∀ x ∈ c.ignore_prediction_columns,
      variables_weight_sq c x = (n - 1 / 2 * n) / nI := by
    intro x hx
    simp [variables_weight_sq, hpvw, hIE, hx, hn, hnI]
  have hsumP : group_weight_sq_sum c (prediction_columns c) = 1 / 2 * n := by
    rw [group_weight_sq_sum, sum_map_const_of_forall hvP, ← hnP]
    field_simp
    ring
  have hsumI : group_weight_sq_sum c c.ignore_prediction_columns
      = n - 1 / 2 * n := by
    rw [group_weight_sq_sum, sum_map_const_of_forall hvI, ← hnI]
    field_simp
    ring
  have heq : group_weight_sq_sum c (prediction_columns c) =
      group_weight_sq_sum c c.ignore_prediction_columns := by
    rw [hsumP, hsumI]
    ring
  refine ⟨heq, ?_⟩
  have hsplit := sum_map_filter_split c.columns
    (fun x => c.ignore_prediction_columns.contains x) (variables_weight_sq c)
  have hflen := length_filter_contains hnod hnodI hsubI
  have hsumFilt : ((c.columns.filter
      (fun x => c.ignore_prediction_columns.contains x)).map
        (variables_weight_sq c)).sum = n - 1 / 2 * n := by
    have hv : ∀ x ∈ c.columns.filter
        (fun x => c.ignore_prediction_columns.contains x),
        variables_weight_sq c x = (n - 1 / 2 * n) / nI := by
      intro x hx
      have : x ∈ c.ignore_prediction_columns := by
        have := (List.mem_filter.mp hx).2
        simpa using this
      exact hvI x this
    rw [sum_map_const_of_forall hv, hflen, ← hnI]
    field_simp
    ring
  have htot : group_weight_sq_sum c c.columns = n := by
    rw [group_weight_sq_sum, hsplit, hsumFilt]
    have : ((c.columns.filter
        (fun x => !c.ignore_prediction_columns.contains x)).map
          (variables_weight_sq c)).sum = 1 / 2 * n := by
      have := hsumP
      rw [group_weight_sq_sum, prediction_columns] at this
      exact this
    rw [this]
    ring
  have hclose_self : ∀ a : ℚ, npIsclose a a = true := by
    intro a
    rw [npIsclose]
    refine decide_eq_true ?_
    have h1 : |a - a| = 0 := by simp
    rw [h1]
    positivity
  rw [variables_weight_asserts, htot, heq]
  simp [hclose_self]

/-- C2 witness for the amended theorem: two columns, one predictor-only,
weight 1/2. -/
theorem variables_weight_balanced_at_half_witness :
    (WeightConfig.mk ["a", "b"] ["b"] (some (1 / 2))).prediction_variables_weight
        = some (1 / 2) ∧
    variables_weight_asserts (WeightConfig.mk ["a", "b"] ["b"] (some (1 / 2)))
        = true :=
  ⟨rfl,
    (variables_weight_balanced_at_half (WeightConfig.mk ["a", "b"] ["b"] (some (1 / 2)))
      rfl (by decide) (by decide) (by decide) (by decide) (by decide)).2⟩

/-- C1: the exposed Fit operation binds exactly the six claimed outputs
(TSAR.py lines 301-303), but the argument list it is claimed to pass is not
what the code contains: as written (missing comma at line 315), the last
comma-separated unit is the juxtaposition `self.noise_correction
self.variables_weight`, so the argument list is not well-formed Python — the
module cannot even be parsed — while the spec's intended list of twelve
arguments ending in the noise-correction flag and the weight vector is
well-formed.  The claim is right about the intent; the code has a slip. -/
theorem fit_AR_call_malformed :
    fit_AR_assignment_targets =
      ["past_lag", "rank", "quadratic_regularization",
       "s_times_v", "S_lagged_covariances", "block_lagged_covariances"] ∧
    argsWellFormed fit_AR_call_args = false ∧
    fit_AR_call_args.length = 11 ∧
    argsWellFormed fit_AR_call_args_intended = true ∧
    fit_AR_call_args_intended.length = 12 ∧
    fit_AR_call_args_intended.getLast? = some (selfAttr "variables_weight") ∧
    fit_AR_call_args_intended.take 10 = fit_AR_call_args.take 10 := by
  refine ⟨rfl, ?_, rfl, ?_, rfl, rfl, rfl⟩
  · rfl
  · rfl

/-- C3: reloading a saved model reconstructs the structured covariance by
applying `build_matrices` to exactly the three persisted sufficient
statistics — the Fitting Engine is not among `load_model`'s inputs — and
restores every persisted attribute. -/
theorem save_load_rebuilds_matrices {n k : ℕ} {Freq BP α β γ δ Bytes : Type}
    (bm : α → β → γ → StructuredMats n k δ)
    (dumps : ModelDict Freq BP α β γ → Bytes)
    (loadsBytes : Bytes → ModelDict Freq BP α β γ)
    (hround : ∀ d, loadsBytes (dumps d) = d)
    (m : TSARModel n k Freq BP α β γ δ) :
    (load_model bm loadsBytes (save_model dumps m)).mats
      = bm m.s_times_v m.S_lagged_covariances m.block_lagged_covariances ∧
    (load_model bm loadsBytes (save_model dumps m)).toModelDict
      = m.toModelDict := by
  constructor
  · simp [load_model, save_model, hround m.toModelDict, build_matrices_of]
  · simp [load_model, save_model, hround m.toModelDict]

/-- C3 witness: identity serialization on a one-variable model. -/
theorem save_load_rebuilds_matrices_witness :
    (∀ d : ModelDict Unit Unit Unit Unit Unit, id (id d) = d) ∧
    (load_model demoBuild id (save_model id demoModel)).mats
      = demoBuild demoModel.s_times_v demoModel.S_lagged_covariances
          demoModel.block_lagged_covariances :=
  ⟨fun _ => rfl,
    (save_load_rebuilds_matrices demoBuild id id (fun _ => rfl) demoModel).1⟩

/-- C4: the diagnostic `Sigma` equals `V·S·Vᵀ + D_matrix`, while `predict`
goes through the structured Schur solver: every known slot of its output
keeps its residual value, and the `j`-th unknown slot receives the `j`-th
conditional mean the solver returns for the structured components `(V, S,
S_inv, D_blocks, D_matrix)` — the dense `Sigma` is not among the solver's
inputs. -/
theorem Sigma_formula_and_predict_via_schur {n k : ℕ} {Freq BP α β γ δ ε : Type}
    (mbi : δ → ε) (schur : SchurSolver n k δ ε)
    (m : TSARModel n k Freq BP α β γ δ) (v : Fin n → Option ℚ) :
    TSAR_Sigma m = m.mats.V * m.mats.S * m.mats.V.transpose + m.mats.D_matrix ∧
    (∀ i x, v i = some x → TSAR_predict mbi schur m v i = x) ∧
    (∀ j (hj : j < (unknown_positions v).length),
      TSAR_predict mbi schur m v ((unknown_positions v).get ⟨j, hj⟩)
        = (schur m.mats (mbi m.mats.D_blocks) (known_mask v) (known_values v)
            (fun i => !known_mask v i) m.quadratic_regularization).getD j 0) := by
  refine ⟨rfl, ?_, ?_⟩
  · intro i x h
    simp [TSAR_predict, h]
  · intro j hj
    have hnd : (unknown_positions v).Nodup :=
      (List.nodup_finRange n).filter _
    have hmem : (unknown_positions v)[j] ∈ unknown_positions v := by
      have h1 := List.get_mem (unknown_positions v) j hj
      exact h1
    have hnone : v ((unknown_positions v)[j]) = none := by
      have h2 := (List.mem_filter.mp hmem).2
      simpa using h2
    have hidx : List.indexOf ((unknown_positions v)[j]) (unknown_positions v)
        = j := List.indexOf_getElem hnd j hj
    simp [TSAR_predict, hnone, hidx]

/-- C4 witness: a single-slot window whose entry is known keeps its value. -/
theorem Sigma_formula_and_predict_via_schur_witness :
    ((fun _ : Fin 1 => some (3 : ℚ)) 0 = some 3) ∧
    TSAR_predict (fun _ => ()) demoSchur demoModel
      (fun _ : Fin 1 => some (3 : ℚ)) 0 = 3 :=
  ⟨rfl,
    (Sigma_formula_and_predict_via_schur (fun _ => ()) demoSchur demoModel
      (fun _ : Fin 1 => some (3 : ℚ))).2.1 0 3 rfl⟩

/-- C8: when every entry of the prediction window is known, the prediction
targets passed to the Schur solver form an empty set, the solver's output —
one conditional mean per target, which is what `hlen` states — is the empty
list, `predict` keeps every known residual unchanged, and the
conditional-variance vector is identically zero. -/
theorem predict_all_known {n k : ℕ} {Freq BP α β γ δ ε : Type}
    (mbi : δ → ε) (schur : SchurSolver n k δ ε)
    (m : TSARModel n k Freq BP α β γ δ) (v : Fin n → Option ℚ)
    (std : Fin n → ℚ) (condDiag : List ℚ)
    (hall : ∀ i, (v i).isSome)
    (hlen : (schur m.mats (mbi m.mats.D_blocks) (known_mask v)
        (known_values v) (fun i => !known_mask v i)
        m.quadratic_regularization).length
      = ((List.finRange n).filter (fun i => !known_mask v i)).length) :
    unknown_positions v = [] ∧
    schur m.mats (mbi m.mats.D_blocks) (known_mask v) (known_values v)
      (fun i => !known_mask v i) m.quadratic_regularization = [] ∧
    (∀ i, TSAR_predict mbi schur m v i = (v i).getD 0) ∧
    (∀ i, predict_sigval condDiag v std i = 0) := by
  have hfilter : ((List.finRange n).filter (fun i => !known_mask v i)) = [] := by
    apply List.filter_eq_nil_iff.mpr
    intro a _
    simp [known_mask, hall a]
  refine ⟨?_, ?_, ?_, ?_⟩
  · apply List.filter_eq_nil_iff.mpr
    intro a _
    obtain ⟨x, hx⟩ := Option.isSome_iff_exists.mp (hall a)
    simp [hx]
  · rw [hfilter] at hlen
    exact List.length_eq_zero.mp hlen
  · intro i
    obtain ⟨x, hx⟩ := Option.isSome_iff_exists.mp (hall i)
    simp [TSAR_predict, hx]
  · intro i
    simp [predict_sigval, hall i]

/-- C8 witness: a fully known one-slot window. -/
theorem predict_all_known_witness :
    (∀ i : Fin 1, ((fun _ : Fin 1 => some (3 : ℚ)) i).isSome) ∧
    unknown_positions (fun _ : Fin 1 => some (3 : ℚ)) = [] ∧
    TSAR_predict (fun _ => ()) demoSchur demoModel
      (fun _ : Fin 1 => some (3 : ℚ)) 0 = ((some (3 : ℚ)).getD 0) :=
  ⟨fun _ => rfl,
    (predict_all_known (fun _ => ()) demoSchur demoModel
      (fun _ : Fin 1 => some (3 : ℚ)) (fun _ => 1) [] (fun _ => rfl) rfl).1,
    (predict_all_known (fun _ => ()) demoSchur demoModel
      (fun _ : Fin 1 => some (3 : ℚ)) (fun _ => 1) [] (fun _ => rfl) rfl).2.2.1 0⟩

/-- C9: the per-column per-lag autoregressive RMSE returned by `test_AR`
equals the residual-unit RMSE produced by the inference engine's `rmse_AR`
multiplied by that column's stored baseline scale factor, and the gradient
diagnostics pass through unchanged. -/
theorem test_AR_rescales_by_std {n k : ℕ} {Freq BP α β γ δ Data Res G : Type}
    (reindex : Data → List Col → Data) (residual_of : Data → Res)
    (rmse_AR : StructuredMats n k δ → ℕ → ℕ → Res → (Col → ℕ) → List Col →
      ℚ → (Col → ℕ → ℚ) × G)
    (m : TSARModel n k Freq BP α β γ δ) (test : Data) (col : Col) (lag : ℕ) :
    (test_AR reindex residual_of rmse_AR m test).1 col lag
      = (rmse_AR m.mats m.past_lag m.future_lag
          (residual_of (reindex test m.columns)) m.available_data_lags_columns
          m.ignore_prediction_columns m.quadratic_regularization).1 col lag
        * m.baseline_results_columns col ∧
    (test_AR reindex residual_of rmse_AR m test).2
      = (rmse_AR m.mats m.past_lag m.future_lag
          (residual_of (reindex test m.columns)) m.available_data_lags_columns
          m.ignore_prediction_columns m.quadratic_regularization).2 :=
  ⟨rfl, rfl⟩

theorem rat_min?_le {l : List ℚ} {a b : ℚ} (h : l.min? = some a)
    (hb : b ∈ l) : a ≤ b := by
  haveI : Std.Antisymm ((· : ℚ) ≤ ·) := ⟨fun h1 h2 => le_antisymm h1 h2⟩
  have hs := (List.min?_eq_some_iff (fun x => le_refl x)
    (fun x y => min_choice x y) (fun _ _ _ => le_min_iff)).mp h
  exact hs.2 b hb

theorem rat_max?_ge {l : List ℚ} {a b : ℚ} (h : l.max? = some a)
    (hb : b ∈ l) : b ≤ a := by
  haveI : Std.Antisymm ((· : ℚ) ≤ ·) := ⟨fun h1 h2 => le_antisymm h1 h2⟩
  have hs := (List.max?_eq_some_iff (fun x => le_refl x)
    (fun x y => max_choice x y) (fun _ _ _ => max_le_iff)).mp h
  exact hs.2 b hb

theorem rat_max?_mem {l : List ℚ} {a : ℚ} (h : l.max? = some a) : a ∈ l :=
  List.max?_mem (fun x y => max_choice x y) h

theorem rat_min?_exists {l : List ℚ} (h : l ≠ []) : ∃ a, l.min? = some a := by
  cases hm : l.min? with
  | none => exact absurd (List.min?_eq_none_iff.mp hm) h
  | some a => exact ⟨a, rfl⟩

theorem rat_max?_exists {l : List ℚ} (h : l ≠ []) : ∃ a, l.max? = some a := by
  cases hm : l.max? with
  | none => exact absurd (List.max?_eq_none_iff.mp hm) h
  | some a => exact ⟨a, rfl⟩

theorem seriesClip_some_bounds (lo hi x : ℚ) (h : lo ≤ hi) :
    lo ≤ seriesClip (some lo) (some hi) x ∧
    seriesClip (some lo) (some hi) x ≤ hi := by
  have hc : seriesClip (some lo) (some hi) x = min (max x lo) hi := rfl
  rw [hc]
  exact ⟨le_min (le_max_right x lo) h, min_le_right _ _⟩

/-- C10: every value `predict` (and, through the same `_invert_residual`
path, `predict_many`) returns lies between the per-column minimum and
maximum observed in the data used for the fit, whenever that column had any
observation. -/
theorem predictions_clipped_to_fit_ranges {n k : ℕ} {Freq BP α β γ δ ε : Type}
    (mbi : δ → ε) (schur : SchurSolver n k δ ε) (invert_col : Col → ℚ → ℚ)
    (m : TSARModel n k Freq BP α β γ δ) (colOf : Fin n → Col)
    (v : Fin n → Option ℚ) (fitData : Col → List ℚ)
    (hmin : m.var_min = fit_ranges_min fitData)
    (hmax : m.var_max = fit_ranges_max fitData)
    (i : Fin n) (hne : fitData (colOf i) ≠ []) :
    ∃ mn mx, (fitData (colOf i)).min? = some mn ∧
      (fitData (colOf i)).max? = some mx ∧
      mn ≤ TSAR_predict_output mbi schur invert_col m colOf v i ∧
      TSAR_predict_output mbi schur invert_col m colOf v i ≤ mx := by
  obtain ⟨mn, hmn⟩ := rat_min?_exists hne
  obtain ⟨mx, hmx⟩ := rat_max?_exists hne
  have hmnmx : mn ≤ mx := rat_min?_le hmn (rat_max?_mem hmx)
  have hout : TSAR_predict_output mbi schur invert_col m colOf v i
      = seriesClip (some mn) (some mx)
          (invert_col (colOf i) (TSAR_predict mbi schur m v i)) := by
    simp [TSAR_predict_output, invert_residual_entry, hmin, hmax,
      fit_ranges_min, fit_ranges_max, hmn, hmx]
  refine ⟨mn, mx, hmn, hmx, ?_, ?_⟩
  · rw [hout]
    exact (seriesClip_some_bounds mn mx _ hmnmx).1
  · rw [hout]
    exact (seriesClip_some_bounds mn mx _ hmnmx).2

/-- C10 witness: a one-slot window whose solver prediction 7 is clipped into
the fitted range `[0, 2]`. -/
theorem predictions_clipped_to_fit_ranges_witness :
    (demoFitModel.var_min = fit_ranges_min demoFitData) ∧
    (demoFitModel.var_max = fit_ranges_max demoFitData) ∧
    (demoFitData ((fun _ : Fin 1 => "a") 0) ≠ []) ∧
    (∃ mn mx, (demoFitData ((fun _ : Fin 1 => "a") 0)).min? = some mn ∧
      (demoFitData ((fun _ : Fin 1 => "a") 0)).max? = some mx ∧
      mn ≤ TSAR_predict_output (fun _ => ()) demoSchur (fun _ r => r)
        demoFitModel (fun _ => "a") (fun _ => none) 0 ∧
      TSAR_predict_output (fun _ => ()) demoSchur (fun _ r => r)
        demoFitModel (fun _ => "a") (fun _ => none) 0 ≤ mx) :=
  ⟨rfl, rfl, List.cons_ne_nil _ _,
    predictions_clipped_to_fit_ranges (fun _ => ()) demoSchur (fun _ r => r)
      demoFitModel (fun _ => "a") (fun _ => none) demoFitData rfl rfl 0
      (List.cons_ne_nil _ _)⟩

/-- C5: for the masks of `make_prediction_mask`, every prediction-mask slot
is an unknown-mask slot, and no unknown-mask slot is among the known entries
presented to the inference engine by `predict_many`. -/
theorem prediction_mask_invariants (available_data_lags : Col → ℕ)
    (ignore_col : Col → Bool) (cols : List Col) (past_lag future_lag : ℕ)
    (row : ℕ → Option ℚ) (p : ℕ) :
    ((make_prediction_mask available_data_lags ignore_col cols
        past_lag future_lag).1 p = true →
      (make_prediction_mask available_data_lags ignore_col cols
        past_lag future_lag).2 p = true) ∧
    ((make_prediction_mask available_data_lags ignore_col cols
        past_lag future_lag).2 p = true →
      known_entries_mask row (make_prediction_mask available_data_lags
        ignore_col cols past_lag future_lag).2 p = false) := by
  constructor
  · intro h
    simp only [make_prediction_mask, Bool.and_eq_true, decide_eq_true_eq] at h ⊢
    exact le_trans h.1 (Nat.le_add_right _ _)
  · intro h
    simp [known_entries_mask, masked_row, h]

/-- C5 witness: one variable, `past_lag = future_lag = 1`, no availability
delay: the future slot is a prediction target, is unknown, and is not among
the known entries. -/
theorem prediction_mask_invariants_witness :
    ((make_prediction_mask (fun _ => 0) (fun _ => false) ["a"] 1 1).1 1
      = true) ∧
    ((make_prediction_mask (fun _ => 0) (fun _ => false) ["a"] 1 1).2 1
      = true) ∧
    (known_entries_mask (fun _ => some (0 : ℚ))
      (make_prediction_mask (fun _ => 0) (fun _ => false) ["a"] 1 1).2 1
      = false) :=
  ⟨by decide,
    (prediction_mask_invariants (fun _ => 0) (fun _ => false) ["a"] 1 1
      (fun _ => some (0 : ℚ)) 1).1 (by decide),
    (prediction_mask_invariants (fun _ => 0) (fun _ => false) ["a"] 1 1
      (fun _ => some (0 : ℚ)) 1).2 (by decide)⟩

end TSARSpec
